import Mathlib

/-!
Verification development for the ClickUp MCP server sources:
`src/services/clickup/view.ts`, `src/tools/view.ts`, `src/tools/space.ts`.

The TypeScript code is shallowly embedded: each function becomes an
executable Lean function.  Remote HTTP calls performed by the service layer
are modelled as oracle fields of an environment record, and every function
additionally returns the list of remote calls it issued (its trace), so
that statements about which upstream requests and cache operations happen
are expressible.  JavaScript truthiness on optional strings, numbers and
objects is modelled explicitly (`truthy`, `jsOr`, `jsOrInt`).
-/

namespace ClickUpMCP

/-- The fields of a ClickUp view that the embedded control flow inspects
(`id`, `name`, `type`); the remaining response payload fields are
passthrough data never examined by the modelled functions. -/
structure ClickUpView where
  id : String
  name : String
  type : String
  deriving DecidableEq, Repr

/-- Error codes used by the view service (from services/clickup/base.ts). -/
inductive ErrorCode where
  | UNKNOWN
  | INVALID_PARAMETER
  deriving DecidableEq, Repr

/-- A ClickUpServiceError as surfaced to callers: its message and code. -/
structure ClickUpServiceError where
  message : String
  code : ErrorCode
  deriving DecidableEq, Repr

/-- A value reaching a catch block: either an already typed
ClickUpServiceError, or a raw error (transport failure etc.) carrying only
its message. -/
inductive CaughtError where
  | service (e : ClickUpServiceError)
  | other (message : String)
  deriving DecidableEq, Repr

/-- ViewService.handleError (view.ts lines 35-45): a ClickUpServiceError is
returned unchanged; any other error is wrapped with the custom message,
falling back to a generic one. -/
def ViewService.handleError (error : CaughtError) (message : Option String) :
    ClickUpServiceError :=
  match error with
  | .service e => e
  | .other m =>
      { message := message.getD ("View service error: " ++ m)
        code := ErrorCode.UNKNOWN }

/-- JavaScript truthiness of an optional string: absent and empty are falsy. -/
def truthy : Option String → Bool
  | none => false
  | some s => !(s == "")

/-- JavaScript `x || d` on an optional string (empty string is falsy). -/
def jsOr (o : Option String) (d : String) : String :=
  match o with
  | none => d
  | some s => if s == "" then d else s

/-- JavaScript `x || d` on a string value (empty string is falsy). -/
def jsOrS (s d : String) : String :=
  if s == "" then d else s

/-- JavaScript `x || d` on an optional number (0 is falsy). -/
def jsOrInt (o : Option Int) (d : Int) : Int :=
  match o with
  | none => d
  | some i => if i == 0 then d else i

/-- View grouping as sent to the API: { field, dir }. -/
structure ViewGrouping where
  field : String
  dir : Int
  deriving DecidableEq, Repr

/-- One filter condition in tool-input shape: { field, operator, value }. -/
structure FilterConditionInput where
  field : Option String
  operator : Option String
  value : Option String
  deriving DecidableEq, Repr

/-- Tool-input filters object: { operator, conditions }. -/
structure FiltersInput where
  operator : Option String
  conditions : Option (List FilterConditionInput)
  deriving DecidableEq, Repr

/-- One filter condition in API shape: { field, op, value }. -/
structure FilterCondition where
  field : Option String
  op : Option String
  value : Option String
  deriving DecidableEq, Repr

/-- API-shape filters object: { op, filters }. -/
structure ViewFilters where
  op : String
  filters : List FilterCondition
  deriving DecidableEq, Repr

/-- A column specification, passed through unchanged: { field, type }. -/
structure Column where
  field : Option String
  type : Option String
  deriving DecidableEq, Repr

/-- Tool-input view settings (camelCase keys). -/
structure ViewSettingsInput where
  showTaskLocations : Option Bool
  showSubtasks : Option Int
  showAssignees : Option Bool
  showImages : Option Bool
  meMode : Option Bool
  deriving DecidableEq, Repr

/-- API-shape view settings (snake_case keys). -/
structure ViewSettings where
  show_task_locations : Option Bool
  show_subtasks : Option Int
  show_assignees : Option Bool
  show_images : Option Bool
  me_mode : Option Bool
  deriving DecidableEq, Repr

/-- The parent reference of a view: { id, type }. -/
structure ViewParent where
  id : String
  type : String
  deriving DecidableEq, Repr

/-- CreateViewData as built by handleCreateView (view.ts lines 407-450). -/
structure CreateViewData where
  name : String
  type : String
  parent : ViewParent
  grouping : Option ViewGrouping
  filters : Option ViewFilters
  columns : Option (List Column)
  settings : Option ViewSettings
  deriving DecidableEq, Repr

/-- UpdateViewData as built by handleUpdateView (view.ts lines 582-616). -/
structure UpdateViewData where
  name : Option String
  grouping : Option ViewGrouping
  filters : Option ViewFilters
  columns : Option (List Column)
  settings : Option ViewSettings
  deriving DecidableEq, Repr

/-- Feature sub-object carrying an enabled flag (tool and API shape). -/
structure FeatureToggle where
  enabled : Option Bool
  deriving DecidableEq, Repr

/-- Tool-input due-dates feature configuration (camelCase). -/
structure DueDatesInput where
  enabled : Option Bool
  startDate : Option Bool
  remapDueDates : Option Bool
  remapClosedDueDate : Option Bool
  deriving DecidableEq, Repr

/-- API-shape due-dates feature configuration (snake_case). -/
structure DueDatesApi where
  enabled : Option Bool
  start_date : Option Bool
  remap_due_dates : Option Bool
  remap_closed_due_date : Option Bool
  deriving DecidableEq, Repr

/-- Tool-input features object (space.ts schema). -/
structure FeaturesInput where
  dueDates : Option DueDatesInput
  timeTracking : Option FeatureToggle
  tags : Option FeatureToggle
  timeEstimates : Option FeatureToggle
  checklists : Option FeatureToggle
  customFields : Option FeatureToggle
  remapDependencies : Option FeatureToggle
  dependencyWarning : Option FeatureToggle
  portfolios : Option FeatureToggle
  deriving DecidableEq, Repr

/-- API-shape features object built by convertFeaturesToAPI. -/
structure ApiFeatures where
  due_dates : Option DueDatesApi
  time_tracking : Option FeatureToggle
  tags : Option FeatureToggle
  time_estimates : Option FeatureToggle
  checklists : Option FeatureToggle
  custom_fields : Option FeatureToggle
  remap_dependencies : Option FeatureToggle
  dependency_warning : Option FeatureToggle
  portfolios : Option FeatureToggle
  deriving DecidableEq, Repr

/-- Number of keys present on an ApiFeatures object
(Object.keys(apiFeatures).length). -/
def ApiFeatures.keyCount (f : ApiFeatures) : Nat :=
  (if f.due_dates.isSome then 1 else 0) +
  (if f.time_tracking.isSome then 1 else 0) +
  (if f.tags.isSome then 1 else 0) +
  (if f.time_estimates.isSome then 1 else 0) +
  (if f.checklists.isSome then 1 else 0) +
  (if f.custom_fields.isSome then 1 else 0) +
  (if f.remap_dependencies.isSome then 1 else 0) +
  (if f.dependency_warning.isSome then 1 else 0) +
  (if f.portfolios.isSome then 1 else 0)

/-- convertFeaturesToAPI (space.ts lines 326-373): maps each present
camelCase feature block to its snake_case API form; returns undefined when
no feature key is present. -/
def convertFeaturesToAPI (features : Option FeaturesInput) : Option ApiFeatures :=
  match features with
  | none => none
  | some fs =>
      let api : ApiFeatures :=
        { due_dates := fs.dueDates.map (fun d =>
            { enabled := d.enabled
              start_date := d.startDate
              remap_due_dates := d.remapDueDates
              remap_closed_due_date := d.remapClosedDueDate })
          time_tracking := fs.timeTracking
          tags := fs.tags
          time_estimates := fs.timeEstimates
          checklists := fs.checklists
          custom_fields := fs.customFields
          remap_dependencies := fs.remapDependencies
          dependency_warning := fs.dependencyWarning
          portfolios := fs.portfolios }
      if api.keyCount > 0 then some api else none

/-- The fields of a ClickUp space that the embedded control flow inspects.
A missing name in a remote response is modelled as the empty string, which
is exactly what the JavaScript truthiness tests on it treat as absent. -/
structure ClickUpSpace where
  id : String
  name : String
  «private» : Option Bool
  deriving DecidableEq, Repr

/-- CreateSpaceData as built by handleCreateSpace (space.ts lines 387-396):
only name, multiple_assignees and (optionally) features. -/
structure CreateSpaceData where
  name : String
  multiple_assignees : Option Bool
  features : Option ApiFeatures
  deriving DecidableEq, Repr

/-- UpdateSpaceData as built by handleCreateSpace / handleUpdateSpace. -/
structure UpdateSpaceData where
  name : Option String
  color : Option String
  «private» : Option Bool
  admin_can_manage : Option Bool
  multiple_assignees : Option Bool
  features : Option ApiFeatures
  deriving DecidableEq, Repr

/-- Number of keys present on an UpdateSpaceData object
(Object.keys(updateData).length). -/
def UpdateSpaceData.keyCount (d : UpdateSpaceData) : Nat :=
  (if d.name.isSome then 1 else 0) +
  (if d.color.isSome then 1 else 0) +
  (if d.«private».isSome then 1 else 0) +
  (if d.admin_can_manage.isSome then 1 else 0) +
  (if d.multiple_assignees.isSome then 1 else 0) +
  (if d.features.isSome then 1 else 0)

/-- One remote interaction issued by the embedded code.  The two cache
constructors correspond to the invalidation operations named by the spec;
they are included so that statements about their absence from handler
traces are expressible. -/
inductive RemoteCall where
  | getWorkspaceViews
  | getSpaceViews (spaceId : String)
  | getFolderViews (folderId : String)
  | getListViews (listId : String)
  | getView (viewId : String)
  | createView (data : CreateViewData)
  | updateView (viewId : String) (data : UpdateViewData)
  | findSpaceIDByName (name : String)
  | getWorkspaceHierarchy
  | createSpace (data : CreateSpaceData)
  | updateSpace (spaceId : String) (data : UpdateSpaceData)
  | getSpace (spaceId : String)
  | deleteSpace (spaceId : String)
  | findSpaceByName (name : String)
  | invalidate (scopeKey : String)
  | invalidateAll
  deriving DecidableEq, Repr

/-- Whether a remote interaction is a cache-invalidation operation. -/
def RemoteCall.isInvalidate : RemoteCall → Bool
  | .invalidate _ => true
  | .invalidateAll => true
  | _ => false

/-- The HTTP client behind ViewService: each endpoint either returns its
payload or fails with a raw transport error message. -/
structure ViewClient where
  workspaceViews : Except String (List ClickUpView)
  spaceViews : String → Except String (List ClickUpView)
  folderViews : String → Except String (List ClickUpView)
  listViews : String → Except String (List ClickUpView)
  getView : String → Except String ClickUpView
  createView : CreateViewData → Except String ClickUpView
  updateView : String → UpdateViewData → Except String ClickUpView

/-- ViewService.getWorkspaceViews (view.ts lines 109-120). -/
def ViewService.getWorkspaceViews (c : ViewClient) :
    Except ClickUpServiceError (List ClickUpView) × List RemoteCall :=
  (match c.workspaceViews with
   | .ok r => .ok r
   | .error m =>
       .error (ViewService.handleError (.other m) (some "Failed to get workspace views")),
   [RemoteCall.getWorkspaceViews])

/-- ViewService.getSpaceViews (view.ts lines 127-138). -/
def ViewService.getSpaceViews (c : ViewClient) (spaceId : String) :
    Except ClickUpServiceError (List ClickUpView) × List RemoteCall :=
  (match c.spaceViews spaceId with
   | .ok r => .ok r
   | .error m =>
       .error (ViewService.handleError (.other m) (some "Failed to get space views")),
   [RemoteCall.getSpaceViews spaceId])

/-- ViewService.getFolderViews (view.ts lines 145-156). -/
def ViewService.getFolderViews (c : ViewClient) (folderId : String) :
    Except ClickUpServiceError (List ClickUpView) × List RemoteCall :=
  (match c.folderViews folderId with
   | .ok r => .ok r
   | .error m =>
       .error (ViewService.handleError (.other m) (some "Failed to get folder views")),
   [RemoteCall.getFolderViews folderId])

/-- ViewService.getListViews (view.ts lines 163-174). -/
def ViewService.getListViews (c : ViewClient) (listId : String) :
    Except ClickUpServiceError (List ClickUpView) × List RemoteCall :=
  (match c.listViews listId with
   | .ok r => .ok r
   | .error m =>
       .error (ViewService.handleError (.other m) (some "Failed to get list views")),
   [RemoteCall.getListViews listId])

/-- ViewService.getView (view.ts lines 92-103). -/
def ViewService.getView (c : ViewClient) (viewId : String) :
    Except ClickUpServiceError ClickUpView × List RemoteCall :=
  (match c.getView viewId with
   | .ok r => .ok r
   | .error m =>
       .error (ViewService.handleError (.other m) (some ("Failed to get view " ++ viewId))),
   [RemoteCall.getView viewId])

/-- ViewService.createView (view.ts lines 52-85): dispatches on the parent
type to pick an endpoint (an unrecognized type raises INVALID_PARAMETER
before any request), posts the view data, and wraps failures. -/
def ViewService.createView (c : ViewClient) (viewData : CreateViewData) :
    Except ClickUpServiceError ClickUpView × List RemoteCall :=
  if viewData.parent.type == "team" || viewData.parent.type == "space" ||
      viewData.parent.type == "folder" || viewData.parent.type == "list" then
    (match c.createView viewData with
     | .ok v => .ok v
     | .error m =>
         .error (ViewService.handleError (.other m) (some "Failed to create view")),
     [RemoteCall.createView viewData])
  else
    (.error (ViewService.handleError
      (.service { message := "Invalid parent type: " ++ viewData.parent.type
                  code := ErrorCode.INVALID_PARAMETER })
      (some "Failed to create view")), [])

/-- ViewService.updateView (view.ts lines 182-196). -/
def ViewService.updateView (c : ViewClient) (viewId : String) (updateData : UpdateViewData) :
    Except ClickUpServiceError ClickUpView × List RemoteCall :=
  (match c.updateView viewId updateData with
   | .ok r => .ok r
   | .error m =>
       .error (ViewService.handleError (.other m) (some ("Failed to update view " ++ viewId))),
   [RemoteCall.updateView viewId updateData])

/-- ViewService.findViewByName (view.ts lines 250-285): fetch the views of
the parent (dispatching on the parent type), then return the first view
whose name is exactly equal to the query, or null; fetch errors are
re-raised through handleError. -/
def ViewService.findViewByName (c : ViewClient) (parentId : String)
    (parentType : String) (viewName : String) :
    Except ClickUpServiceError (Option ClickUpView) × List RemoteCall :=
  let fetched : Except ClickUpServiceError (List ClickUpView) × List RemoteCall :=
    match parentType with
    | "team" => ViewService.getWorkspaceViews c
    | "space" => ViewService.getSpaceViews c parentId
    | "folder" => ViewService.getFolderViews c parentId
    | "list" => ViewService.getListViews c parentId
    | _ => (.error { message := "Invalid parent type: " ++ parentType
                     code := ErrorCode.INVALID_PARAMETER }, [])
  (match fetched.1 with
   | .error e =>
       .error (ViewService.handleError (.service e)
         (some ("Failed to find view by name: " ++ viewName)))
   | .ok views => .ok (views.find? (fun v => v.name == viewName)),
   fetched.2)

/-- Environment of the tool layer.  `teamId` is config.clickupTeamId.
The remaining fields model functions of `services/workspace.ts` and
`utils/color-processor.ts`, which are files of this repository that are
not under src/; they are modelled from the spec and from their call sites:
`findSpaceIDByName` searches the workspace for a space of the given name
and returns at most one id or null; `findFolderIDByName` and
`findListIDByName` stand for getWorkspaceHierarchy followed by the pure
findIDByNameInHierarchy, which searches all folders (resp. all lists,
including folderless ones) across the workspace and returns at most one
match or null; `findSpaceByName` returns at most one space or null;
`processColorCommand` returns the background hex of a recognized color
command, or null.  Each oracle that performs a remote fetch may also fail
with a transport error. -/
structure WorkspaceEnv where
  teamId : String
  findSpaceIDByName : String → Except String (Option String)
  findFolderIDByName : String → Except String (Option String)
  findListIDByName : String → Except String (Option String)
  createSpace : CreateSpaceData → Except String ClickUpSpace
  updateSpace : String → UpdateSpaceData → Except String ClickUpSpace
  getSpace : String → Except String ClickUpSpace
  deleteSpace : String → Except String Unit
  findSpaceByName : String → Except String (Option ClickUpSpace)
  processColorCommand : String → Option String

/-- resolveParentId (tools/view.ts lines 339-380).  Rule order: the team
(root) level returns the configured workspace id at once; a (truthy)
parentId is returned unchanged; with neither id nor (truthy) name the
call fails naming the required parameter pair; otherwise the name is
resolved per parent type via the workspace service.  The error type is
the thrown Error message. -/
def resolveParentId (w : WorkspaceEnv) (parentType : String)
    (parentId parentName : Option String) :
    Except String String × List RemoteCall :=
  if parentType == "team" then
    (.ok w.teamId, [])
  else if truthy parentId then
    (.ok (parentId.getD ""), [])
  else if !(truthy parentName) then
    (.error ("Either parentId or parentName must be provided for " ++ parentType), [])
  else
    let name := parentName.getD ""
    match parentType with
    | "space" =>
        (match w.findSpaceIDByName name with
         | .error m => .error m
         | .ok none => .error ("Space \"" ++ name ++ "\" not found")
         | .ok (some id) => .ok id,
         [RemoteCall.findSpaceIDByName name])
    | "folder" =>
        (match w.findFolderIDByName name with
         | .error m => .error m
         | .ok none => .error ("Folder \"" ++ name ++ "\" not found")
         | .ok (some id) => .ok id,
         [RemoteCall.getWorkspaceHierarchy])
    | "list" =>
        (match w.findListIDByName name with
         | .error m => .error m
         | .ok none => .error ("List \"" ++ name ++ "\" not found")
         | .ok (some id) => .ok id,
         [RemoteCall.getWorkspaceHierarchy])
    | _ => (.error ("Invalid parent type: " ++ parentType), [])

/-- The tool-layer findViewByName helper (tools/view.ts lines 385-387):
forwards to the view service. -/
def findViewByName (c : ViewClient) (parentType : String) (parentId : String)
    (viewName : String) :
    Except ClickUpServiceError (Option ClickUpView) × List RemoteCall :=
  ViewService.findViewByName c parentId parentType viewName

/-- Outcome of a tool handler: a success response created through
sponsorService.createResponse, an error response created through
sponsorService.createErrorResponse, or an exception escaping the handler
(thrown outside its try block). -/
inductive HandlerOutcome (α : Type) where
  | response (data : α)
  | errorResponse (message : String)
  | thrown (message : String)
  deriving DecidableEq, Repr

/-- Parameters of the create_view tool. -/
structure CreateViewParams where
  name : Option String
  type : Option String
  parentType : Option String
  parentId : Option String
  parentName : Option String
  groupBy : Option String
  groupDirection : Option Int
  filters : Option FiltersInput
  columns : Option (List Column)
  settings : Option ViewSettingsInput
  deriving DecidableEq, Repr

/-- Success payload of handleCreateView (modelled fields). -/
structure CreateViewResponse where
  id : String
  name : String
  type : String
  message : String
  deriving DecidableEq, Repr

/-- Conversion of tool-input filters to API shape, as inlined in
handleCreateView (lines 425-434) and handleUpdateView (lines 593-601). -/
def buildViewFilters (f : FiltersInput) : ViewFilters :=
  { op := jsOr f.operator "AND"
    filters :=
      match f.conditions with
      | some cs => cs.map (fun cond =>
          { field := cond.field, op := cond.operator, value := cond.value })
      | none => [] }

/-- Conversion of tool-input settings to API shape, as inlined in
handleCreateView (lines 442-450) and handleUpdateView (lines 608-616). -/
def buildViewSettings (s : ViewSettingsInput) : ViewSettings :=
  { show_task_locations := s.showTaskLocations
    show_subtasks := s.showSubtasks
    show_assignees := s.showAssignees
    show_images := s.showImages
    me_mode := s.meMode }

/-- handleCreateView (tools/view.ts lines 392-465).  Validation errors and
resolveParentId errors are thrown outside the try block; the create call
happens inside it, so its failure becomes an error response. -/
def handleCreateView (c : ViewClient) (w : WorkspaceEnv) (p : CreateViewParams) :
    HandlerOutcome CreateViewResponse × List RemoteCall :=
  if !(truthy p.name) || !(truthy p.type) || !(truthy p.parentType) then
    (.thrown "name, type, and parentType are required", [])
  else
    let rp := resolveParentId w (p.parentType.getD "") p.parentId p.parentName
    match rp.1 with
    | .error m => (.thrown m, rp.2)
    | .ok resolvedParentId =>
        let viewData : CreateViewData :=
          { name := p.name.getD ""
            type := p.type.getD ""
            parent := { id := resolvedParentId, type := p.parentType.getD "" }
            grouping :=
              if truthy p.groupBy then
                some { field := p.groupBy.getD "", dir := jsOrInt p.groupDirection 1 }
              else none
            filters := p.filters.map buildViewFilters
            columns := p.columns
            settings := p.settings.map buildViewSettings }
        let cv := ViewService.createView c viewData
        (match cv.1 with
         | .ok v =>
             .response { id := v.id, name := v.name, type := v.type
                         message := "View \"" ++ p.name.getD "" ++ "\" created successfully" }
         | .error e => .errorResponse ("Failed to create view: " ++ e.message),
         rp.2 ++ cv.2)

/-- Parameters of the get_view tool. -/
structure GetViewParams where
  viewId : Option String
  viewName : Option String
  parentType : Option String
  parentId : Option String
  parentName : Option String
  deriving DecidableEq, Repr

/-- Success payload of handleGetView (modelled fields). -/
structure GetViewResponse where
  id : String
  name : String
  type : String
  message : String
  deriving DecidableEq, Repr

/-- handleGetView (tools/view.ts lines 519-554): by id, or by name after
resolving the parent; all failures inside the try block become error
responses prefixed with "Failed to get view: ". -/
def handleGetView (c : ViewClient) (w : WorkspaceEnv) (p : GetViewParams) :
    HandlerOutcome GetViewResponse × List RemoteCall :=
  if truthy p.viewId then
    let gv := ViewService.getView c (p.viewId.getD "")
    (match gv.1 with
     | .ok v =>
         .response { id := v.id, name := v.name, type := v.type
                     message := "Retrieved view \"" ++ v.name ++ "\"" }
     | .error e => .errorResponse ("Failed to get view: " ++ e.message),
     gv.2)
  else if truthy p.viewName && truthy p.parentType then
    let rp := resolveParentId w (p.parentType.getD "") p.parentId p.parentName
    match rp.1 with
    | .error m => (.errorResponse ("Failed to get view: " ++ m), rp.2)
    | .ok resolvedParentId =>
        let fv := findViewByName c (p.parentType.getD "") resolvedParentId (p.viewName.getD "")
        (match fv.1 with
         | .error e => .errorResponse ("Failed to get view: " ++ e.message)
         | .ok none =>
             .errorResponse ("Failed to get view: View \"" ++ p.viewName.getD "" ++ "\" not found")
         | .ok (some v) =>
             .response { id := v.id, name := v.name, type := v.type
                         message := "Retrieved view \"" ++ v.name ++ "\"" },
         rp.2 ++ fv.2)
  else
    (.errorResponse "Failed to get view: Either viewId or (viewName with parent info) must be provided", [])

/-- Parameters of the update_view tool. -/
structure UpdateViewParams where
  viewId : Option String
  viewName : Option String
  parentType : Option String
  parentId : Option String
  parentName : Option String
  name : Option String
  groupBy : Option String
  groupDirection : Option Int
  filters : Option FiltersInput
  columns : Option (List Column)
  settings : Option ViewSettingsInput
  deriving DecidableEq, Repr

/-- Success payload of handleUpdateView (modelled fields). -/
structure UpdateViewResponse where
  id : String
  name : String
  type : String
  message : String
  deriving DecidableEq, Repr

/-- The update data built by handleUpdateView (view.ts lines 582-616):
each field is included only when it passes the JavaScript truthiness test
on the corresponding parameter. -/
def buildUpdateViewData (p : UpdateViewParams) : UpdateViewData :=
  { name := if truthy p.name then p.name else none
    grouping :=
      if truthy p.groupBy then
        some { field := p.groupBy.getD "", dir := jsOrInt p.groupDirection 1 }
      else none
    filters := p.filters.map buildViewFilters
    columns := p.columns
    settings := p.settings.map buildViewSettings }

/-- handleUpdateView (tools/view.ts lines 559-629): resolves the target
view id (given id, or name within a resolved parent), builds the update
data from the truthy parameters, and performs the remote update; all
failures become error responses prefixed with "Failed to update view: ". -/
def handleUpdateView (c : ViewClient) (w : WorkspaceEnv) (p : UpdateViewParams) :
    HandlerOutcome UpdateViewResponse × List RemoteCall :=
  let resolved : Except String String × List RemoteCall :=
    if truthy p.viewId then
      (.ok (p.viewId.getD ""), [])
    else if truthy p.viewName && truthy p.parentType then
      let rp := resolveParentId w (p.parentType.getD "") p.parentId p.parentName
      match rp.1 with
      | .error m => (.error m, rp.2)
      | .ok resolvedParentId =>
          let fv := findViewByName c (p.parentType.getD "") resolvedParentId (p.viewName.getD "")
          (match fv.1 with
           | .error e => .error e.message
           | .ok none => .error ("View \"" ++ p.viewName.getD "" ++ "\" not found")
           | .ok (some v) => .ok v.id,
           rp.2 ++ fv.2)
    else
      (.error "Either viewId or (viewName with parent info) must be provided", [])
  match resolved.1 with
  | .error m => (.errorResponse ("Failed to update view: " ++ m), resolved.2)
  | .ok targetViewId =>
      -- the source re-tests targetViewId for truthiness before updating
      if targetViewId == "" then
        (.errorResponse "Failed to update view: Either viewId or (viewName with parent info) must be provided", resolved.2)
      else
      let updateData := buildUpdateViewData p
      let uv := ViewService.updateView c targetViewId updateData
      (match uv.1 with
       | .ok v =>
           .response { id := v.id, name := v.name, type := v.type
                       message := "View \"" ++ v.name ++ "\" updated successfully" }
       | .error e => .errorResponse ("Failed to update view: " ++ e.message),
       resolved.2 ++ uv.2)

/-- Parameters of the create_space tool. -/
structure CreateSpaceParams where
  name : Option String
  color : Option String
  «private» : Option Bool
  multipleAssignees : Option Bool
  features : Option FeaturesInput
  deriving DecidableEq, Repr

/-- Success payload of handleCreateSpace (modelled fields). -/
structure CreateSpaceResponse where
  id : String
  name : String
  «private» : Option Bool
  url : String
  message : String
  deriving DecidableEq, Repr

/-- The follow-up update data built by handleCreateSpace (space.ts lines
405-422): re-assert the requested name when the creation response reports
none or a different one, add the processed color when one was supplied,
and add the privacy flag when one was supplied. -/
def createSpaceFixupData (w : WorkspaceEnv) (p : CreateSpaceParams)
    (name : String) (newSpace : ClickUpSpace) : UpdateSpaceData :=
  { name := if newSpace.name == "" || !(newSpace.name == name) then some name else none
    color :=
      if truthy p.color then
        let c := p.color.getD ""
        some (match w.processColorCommand c with
              | some background => background
              | none => c)
      else none
    «private» := p.«private»
    admin_can_manage := none
    multiple_assignees := none
    features := none }

/-- handleCreateSpace (tools/space.ts lines 378-445): create the space with
only name, multiple_assignees and features; then, if a name mismatch,
color or privacy flag requires it, update the new space; then, if the name
is still not the requested one, re-fetch the space; the response name
falls back to the requested name when the final space reports none. -/
def handleCreateSpace (w : WorkspaceEnv) (p : CreateSpaceParams) :
    HandlerOutcome CreateSpaceResponse × List RemoteCall :=
  if !(truthy p.name) then
    (.thrown "Space name is required", [])
  else
    let name := p.name.getD ""
    let spaceData : CreateSpaceData :=
      { name := name
        multiple_assignees := p.multipleAssignees
        features := convertFeaturesToAPI p.features }
    match w.createSpace spaceData with
    | .error m =>
        (.errorResponse ("Failed to create space: " ++ m), [RemoteCall.createSpace spaceData])
    | .ok newSpace =>
        let updateData := createSpaceFixupData w p name newSpace
        let afterUpdate : Except String ClickUpSpace × List RemoteCall :=
          if updateData.keyCount > 0 then
            (w.updateSpace newSpace.id updateData,
             [RemoteCall.updateSpace newSpace.id updateData])
          else
            (.ok newSpace, [])
        match afterUpdate.1 with
        | .error m =>
            (.errorResponse ("Failed to create space: " ++ m),
             RemoteCall.createSpace spaceData :: afterUpdate.2)
        | .ok upSpace =>
            let afterGet : Except String ClickUpSpace × List RemoteCall :=
              if upSpace.name == "" || !(upSpace.name == name) then
                (w.getSpace upSpace.id, [RemoteCall.getSpace upSpace.id])
              else
                (.ok upSpace, [])
            match afterGet.1 with
            | .error m =>
                (.errorResponse ("Failed to create space: " ++ m),
                 RemoteCall.createSpace spaceData :: afterUpdate.2 ++ afterGet.2)
            | .ok finalSpace =>
                (.response
                  { id := finalSpace.id
                    name := jsOrS finalSpace.name name
                    «private» := finalSpace.«private»
                    url := "https://app.clickup.com/" ++ w.teamId ++ "/v/s/" ++ finalSpace.id
                    message := "Space \"" ++ jsOrS finalSpace.name name ++ "\" created successfully" },
                 RemoteCall.createSpace spaceData :: afterUpdate.2 ++ afterGet.2)

/-- Parameters of the update_space tool. -/
structure UpdateSpaceParams where
  spaceId : Option String
  spaceName : Option String
  name : Option String
  color : Option String
  «private» : Option Bool
  adminCanManage : Option Bool
  multipleAssignees : Option Bool
  features : Option FeaturesInput
  deriving DecidableEq, Repr

/-- Success payload of handleUpdateSpace (modelled fields). -/
structure UpdateSpaceResponse where
  id : String
  name : String
  «private» : Option Bool
  message : String
  deriving DecidableEq, Repr

/-- The update data built by handleUpdateSpace (space.ts lines 509-524):
each field is included only when the corresponding parameter is truthy
(name, color) or defined (private, adminCanManage, multipleAssignees);
features go through convertFeaturesToAPI. -/
def buildUpdateSpaceData (w : WorkspaceEnv) (p : UpdateSpaceParams) : UpdateSpaceData :=
  { name := if truthy p.name then p.name else none
    color :=
      if truthy p.color then
        let c := p.color.getD ""
        some (match w.processColorCommand c with
              | some background => background
              | none => c)
      else none
    «private» := p.«private»
    admin_can_manage := p.adminCanManage
    multiple_assignees := p.multipleAssignees
    features := convertFeaturesToAPI p.features }

/-- handleUpdateSpace (tools/space.ts lines 487-537): resolve the target
space (id, or unique name via findSpaceByName), build the update data from
the truthy parameters, and perform the remote update; failures become
error responses prefixed with "Failed to update space: ". -/
def handleUpdateSpace (w : WorkspaceEnv) (p : UpdateSpaceParams) :
    HandlerOutcome UpdateSpaceResponse × List RemoteCall :=
  let resolved : Except String String × List RemoteCall :=
    if truthy p.spaceId then
      (.ok (p.spaceId.getD ""), [])
    else if truthy p.spaceName then
      let nm := p.spaceName.getD ""
      (match w.findSpaceByName nm with
       | .error m => .error m
       | .ok none => .error ("Space \"" ++ nm ++ "\" not found")
       | .ok (some s) => .ok s.id,
       [RemoteCall.findSpaceByName nm])
    else
      (.error "Either spaceId or spaceName must be provided", [])
  match resolved.1 with
  | .error m => (.errorResponse ("Failed to update space: " ++ m), resolved.2)
  | .ok targetSpaceId =>
      -- the source re-tests targetSpaceId for truthiness before updating
      if targetSpaceId == "" then
        (.errorResponse "Failed to update space: Either spaceId or spaceName must be provided", resolved.2)
      else
      let updateData := buildUpdateSpaceData w p
      (match w.updateSpace targetSpaceId updateData with
       | .ok s =>
           .response { id := s.id, name := s.name, «private» := s.«private»
                       message := "Space \"" ++ s.name ++ "\" updated successfully" }
       | .error m => .errorResponse ("Failed to update space: " ++ m),
       resolved.2 ++ [RemoteCall.updateSpace targetSpaceId updateData])

/-- Parameters of the delete_space tool. -/
structure DeleteSpaceParams where
  spaceId : Option String
  spaceName : Option String
  deriving DecidableEq, Repr

/-- Success payload of handleDeleteSpace. -/
structure DeleteSpaceResponse where
  message : String
  deriving DecidableEq, Repr

/-- handleDeleteSpace (tools/space.ts lines 542-575): resolve the target
space id and a display name (by name lookup, or fetching the space when
only the id was given), then delete it remotely and confirm. -/
def handleDeleteSpace (w : WorkspaceEnv) (p : DeleteSpaceParams) :
    HandlerOutcome DeleteSpaceResponse × List RemoteCall :=
  let resolved : Except String (String × String) × List RemoteCall :=
    if !(truthy p.spaceId) && truthy p.spaceName then
      let nm := p.spaceName.getD ""
      (match w.findSpaceByName nm with
       | .error m => .error m
       | .ok none => .error ("Space \"" ++ nm ++ "\" not found")
       | .ok (some s) => .ok (s.id, s.name),
       [RemoteCall.findSpaceByName nm])
    else if truthy p.spaceId && !(truthy p.spaceName) then
      let sid := p.spaceId.getD ""
      (match w.getSpace sid with
       | .error m => .error m
       | .ok s => .ok (sid, s.name),
       [RemoteCall.getSpace sid])
    else
      (.ok (p.spaceId.getD "", p.spaceName.getD ""), [])
  match resolved.1 with
  | .error m => (.errorResponse ("Failed to delete space: " ++ m), resolved.2)
  | .ok (targetSpaceId, targetSpaceName) =>
      if targetSpaceId == "" then
        (.errorResponse "Failed to delete space: Either spaceId or spaceName must be provided", resolved.2)
      else
        (match w.deleteSpace targetSpaceId with
         | .ok _ =>
             .response { message := "Space \"" ++ targetSpaceName ++ "\" deleted successfully" }
         | .error m => .errorResponse ("Failed to delete space: " ++ m),
         resolved.2 ++ [RemoteCall.deleteSpace targetSpaceId])

/-! ### Sample data and environments used by concrete evaluations -/

/-- A view named "Sprint 23" (first of two duplicates in space 42). -/
def viewDupA : ClickUpView := { id := "view_a", name := "Sprint 23", type := "board" }

/-- A second view also named "Sprint 23" in space 42. -/
def viewDupB : ClickUpView := { id := "view_b", name := "Sprint 23", type := "list" }

/-- A view named "backlog" (lower case). -/
def viewLower : ClickUpView := { id := "view_l", name := "backlog", type := "list" }

/-- A view named "Backlog" (exact-case target). -/
def viewExact : ClickUpView := { id := "view_e", name := "Backlog", type := "list" }

/-- A sample healthy view client: space 42 holds two views with the same
name, space 7 holds only a lower-case variant of a queried name, space 8
holds an exact-case match next to a case-insensitive distractor. -/
def sampleClient : ViewClient :=
  { workspaceViews := .ok []
    spaceViews := fun sid =>
      if sid == "42" then .ok [viewDupA, viewDupB]
      else if sid == "7" then .ok [viewLower]
      else if sid == "8" then .ok [viewLower, viewExact]
      else .ok []
    folderViews := fun _ => .ok []
    listViews := fun _ => .ok []
    getView := fun _ => .error "network down"
    createView := fun d => .ok { id := "new_view", name := d.name, type := d.type }
    updateView := fun vid d =>
      .ok { id := vid, name := d.name.getD "", type := "board" } }

/-- A view client whose every fetch fails with a transport error. -/
def failingClient : ViewClient :=
  { workspaceViews := .error "ECONNRESET"
    spaceViews := fun _ => .error "ECONNRESET"
    folderViews := fun _ => .error "ECONNRESET"
    listViews := fun _ => .error "ECONNRESET"
    getView := fun _ => .error "ECONNRESET"
    createView := fun _ => .error "ECONNRESET"
    updateView := fun _ _ => .error "ECONNRESET" }

/-- A sample workspace environment: one space "Eng" with id 42; creation
returns the requested name; updates echo the requested fields. -/
def sampleWorkspaceEnv : WorkspaceEnv :=
  { teamId := "team_1"
    findSpaceIDByName := fun n => if n == "Eng" then .ok (some "42") else .ok none
    findFolderIDByName := fun _ => .ok none
    findListIDByName := fun _ => .ok none
    createSpace := fun d => .ok { id := "space_new", name := d.name, «private» := none }
    updateSpace := fun sid d => .ok { id := sid, name := d.name.getD "Eng", «private» := d.«private» }
    getSpace := fun sid => .ok { id := sid, name := "Eng", «private» := none }
    deleteSpace := fun _ => .ok ()
    findSpaceByName := fun n =>
      if n == "Eng" then .ok (some { id := "42", name := "Eng", «private» := none })
      else .ok none
    processColorCommand := fun c => if c == "dark blue" then some "#0b3d91" else none }

/-- A workspace environment whose remote space responses always report an
empty name, exercising the name fix-up and fallback paths of
handleCreateSpace. -/
def namelessWorkspaceEnv : WorkspaceEnv :=
  { teamId := "team_1"
    findSpaceIDByName := fun _ => .ok none
    findFolderIDByName := fun _ => .ok none
    findListIDByName := fun _ => .ok none
    createSpace := fun _ => .ok { id := "space_new", name := "", «private» := none }
    updateSpace := fun sid d => .ok { id := sid, name := "", «private» := d.«private» }
    getSpace := fun sid => .ok { id := sid, name := "", «private» := none }
    deleteSpace := fun _ => .ok ()
    findSpaceByName := fun _ => .ok none
    processColorCommand := fun _ => none }

/-- Concrete create_view parameters: a board view named "Current Sprint"
under space 42. -/
def cvParams : CreateViewParams :=
  { name := some "Current Sprint"
    type := some "board"
    parentType := some "space"
    parentId := some "42"
    parentName := none
    groupBy := none
    groupDirection := none
    filters := none
    columns := none
    settings := none }

/-- Concrete delete_space parameters identifying space 42 by id and name. -/
def dsParams : DeleteSpaceParams := { spaceId := some "42", spaceName := some "Eng" }

/-- Concrete create_space parameters: name, a color and a privacy flag. -/
def csParams : CreateSpaceParams :=
  { name := some "Q1 2025 Projects"
    color := some "green"
    «private» := some true
    multipleAssignees := some true
    features := none }

/-- Concrete update_view parameters carrying an empty-string name next to a
grouping field. -/
def uvParamsEmptyName : UpdateViewParams :=
  { viewId := some "view_a"
    viewName := none
    parentType := none
    parentId := none
    parentName := none
    name := some ""
    groupBy := some "priority"
    groupDirection := some (-1)
    filters := none
    columns := none
    settings := none }

/-- Concrete update_space parameters carrying an empty-string name next to
a privacy flag. -/
def usParamsEmptyName : UpdateSpaceParams :=
  { spaceId := some "42"
    spaceName := none
    name := some ""
    color := none
    «private» := some true
    adminCanManage := none
    multipleAssignees := none
    features := none }

/-- get_view parameters locating a view by name inside a space given by id. -/
def gvParamsSpace (vname pid : String) : GetViewParams :=
  { viewId := none
    viewName := some vname
    parentType := some "space"
    parentId := some pid
    parentName := none }

/-- get_view parameters locating a view by name at the workspace level. -/
def gvParamsTeam (vname : String) : GetViewParams :=
  { viewId := none
    viewName := some vname
    parentType := some "team"
    parentId := none
    parentName := none }

/-- The creation request data handleCreateSpace sends for a requested
name: only the name, the multiple-assignees flag and the converted
features. -/
def createSpaceRequestData (p : CreateSpaceParams) (nm : String) : CreateSpaceData :=
  { name := nm
    multiple_assignees := p.multipleAssignees
    features := convertFeaturesToAPI p.features }

/-- The space namelessWorkspaceEnv reports for every creation. -/
def sNew : ClickUpSpace := { id := "space_new", name := "", «private» := none }

/-- The response handleCreateSpace produces for csParams against
namelessWorkspaceEnv: the name falls back to the requested one. -/
def csOut : CreateSpaceResponse :=
  { id := "space_new"
    name := "Q1 2025 Projects"
    «private» := none
    url := "https://app.clickup.com/team_1/v/s/space_new"
    message := "Space \"Q1 2025 Projects\" created successfully" }

/-! ### Helper lemmas -/

/-- find? returns the head of the filtered list. -/
theorem find_eq_head_filter {α : Type} (p : α → Bool) (l : List α) :
    l.find? p = (l.filter p).head? := by
  induction l with
  | nil => rfl
  | cons a t ih =>
      cases hp : p a with
      | true => rw [List.find?_cons_of_pos _ hp, List.filter_cons_of_pos hp, List.head?_cons]
      | false =>
          rw [List.find?_cons_of_neg _ (by simp [hp]), List.filter_cons_of_neg (by simp [hp]), ih]

/-- find? on a list with no satisfying element returns none. -/
theorem find_none {α : Type} (p : α → Bool) (l : List α)
    (h : ∀ u ∈ l, p u = false) : l.find? p = none := by
  rw [List.find?_eq_none]
  intro x hx
  simp [h x hx]

/-- find? returns the first satisfying element. -/
theorem find_first {α : Type} (p : α → Bool) (l r : List α) (v : α)
    (hl : ∀ u ∈ l, p u = false) (hv : p v = true) :
    (l ++ v :: r).find? p = some v := by
  induction l with
  | nil => simpa using List.find?_cons_of_pos r hv
  | cons a t ih =>
      have ha : p a = false := hl a (List.mem_cons_self a t)
      rw [List.cons_append, List.find?_cons_of_neg _ (by simp [ha])]
      exact ih (fun u hu => hl u (List.mem_cons_of_mem a hu))

/-- Appending the same string on the left preserves distinctness. -/
theorem append_ne_of_ne (s x y : String) (h : x ≠ y) : s ++ x ≠ s ++ y := by
  intro e
  exact h (by
    have hd := congrArg String.data e
    rw [String.data_append, String.data_append] at hd
    exact String.ext (List.append_cancel_left hd))

/-- Two strings whose character data start differently are distinct. -/
theorem ne_of_head_ne (x y : String) (h : x.data.head? ≠ y.data.head?) : x ≠ y := by
  intro e
  exact h (by rw [e])

/-! ### Claim theorems -/

/-- Claim C4: resolveParentId applies its rules in order: a parentType of
"team" returns the configured workspace id immediately with no remote
call, regardless of any supplied parentId or parentName; otherwise a
provided (truthy) parentId is returned unchanged, with no validation and
no remote call. -/
theorem resolveParentId_rule_order :
    ∀ (w : WorkspaceEnv) (parentType : String) (parentId parentName : Option String),
      (parentType = "team" →
        resolveParentId w parentType parentId parentName = (.ok w.teamId, [])) ∧
      (parentType ≠ "team" → ∀ pid, parentId = some pid → pid ≠ "" →
        resolveParentId w parentType parentId parentName = (.ok pid, [])) := by
  intro w pt pid pname
  constructor
  · intro h
    subst h
    simp [resolveParentId]
  · intro hne p hp hpe
    subst hp
    simp [resolveParentId, truthy, hne, hpe]

/-- Witness for C4: both rules at concrete inputs. -/
theorem resolveParentId_rule_order_witness :
    resolveParentId sampleWorkspaceEnv "team" (some "99") (some "Eng") = (.ok "team_1", []) ∧
    resolveParentId sampleWorkspaceEnv "space" (some "99") (some "Eng") = (.ok "99", []) :=
  ⟨(resolveParentId_rule_order sampleWorkspaceEnv "team" (some "99") (some "Eng")).1 rfl,
   (resolveParentId_rule_order sampleWorkspaceEnv "space" (some "99") (some "Eng")).2
     (by decide) "99" rfl (by decide)⟩

/-- Claim C5: for a non-team parentType with neither a truthy parentId nor
a truthy parentName, resolveParentId fails with the MissingParent message
naming the required parameter pair, issues no remote call (empty trace),
and that message is distinct from every NotFound message the resolver can
produce. -/
theorem resolveParentId_missing_parent :
    ∀ (w : WorkspaceEnv) (parentType : String) (parentId parentName : Option String),
      parentType ≠ "team" → truthy parentId = false → truthy parentName = false →
      resolveParentId w parentType parentId parentName =
        (.error ("Either parentId or parentName must be provided for " ++ parentType), []) ∧
      (∀ n : String,
        ("Either parentId or parentName must be provided for " ++ parentType ≠
          "Space \"" ++ n ++ "\" not found") ∧
        ("Either parentId or parentName must be provided for " ++ parentType ≠
          "Folder \"" ++ n ++ "\" not found") ∧
        ("Either parentId or parentName must be provided for " ++ parentType ≠
          "List \"" ++ n ++ "\" not found")) := by
  intro w pt pid pname hne hid hname
  have hE : ("Either parentId or parentName must be provided for " ++ pt).data.head? =
      some 'E' := by
    rw [String.data_append]
    rfl
  refine ⟨by simp [resolveParentId, hne, hid, hname], ?_⟩
  intro n
  refine ⟨ne_of_head_ne _ _ ?_, ne_of_head_ne _ _ ?_, ne_of_head_ne _ _ ?_⟩
  · rw [hE, String.data_append, String.data_append]
    exact (by decide : (some 'E' : Option Char) ≠ some 'S')
  · rw [hE, String.data_append, String.data_append]
    exact (by decide : (some 'E' : Option Char) ≠ some 'F')
  · rw [hE, String.data_append, String.data_append]
    exact (by decide : (some 'E' : Option Char) ≠ some 'L')

/-- Witness for C5: list-typed parent with neither id nor name. -/
theorem resolveParentId_missing_parent_witness :
    resolveParentId sampleWorkspaceEnv "list" none (some "") =
      (.error "Either parentId or parentName must be provided for list", []) ∧
    ("Either parentId or parentName must be provided for list" ≠
      "Space \"Backlog\" not found") :=
  ⟨(resolveParentId_missing_parent sampleWorkspaceEnv "list" none (some "")
      (by decide) rfl rfl).1,
   ((resolveParentId_missing_parent sampleWorkspaceEnv "list" none (some "")
      (by decide) rfl rfl).2 "Backlog").1⟩

/-- Claim C3: when the fetched scope (any of the four parent kinds)
contains exactly one view whose name is byte-for-byte equal to the query,
findViewByName returns exactly that view, regardless of any other view
matching only case-insensitively. -/
theorem findViewByName_exact_match_precedence :
    ∀ (c : ViewClient) (parentId viewName : String) (views : List ClickUpView)
      (v : ClickUpView),
      views.filter (fun u => u.name == viewName) = [v] →
      ((c.workspaceViews = .ok views →
         (ViewService.findViewByName c parentId "team" viewName).1 = .ok (some v)) ∧
       (c.spaceViews parentId = .ok views →
         (ViewService.findViewByName c parentId "space" viewName).1 = .ok (some v)) ∧
       (c.folderViews parentId = .ok views →
         (ViewService.findViewByName c parentId "folder" viewName).1 = .ok (some v)) ∧
       (c.listViews parentId = .ok views →
         (ViewService.findViewByName c parentId "list" viewName).1 = .ok (some v))) := by
  intro c pid nm views v hfilter
  have hfind : views.find? (fun u => u.name == nm) = some v := by
    rw [find_eq_head_filter, hfilter]
    rfl
  refine ⟨?_, ?_, ?_, ?_⟩ <;> intro hc <;>
    simp [ViewService.findViewByName, ViewService.getWorkspaceViews,
      ViewService.getSpaceViews, ViewService.getFolderViews, ViewService.getListViews,
      hc, hfind]

/-- Witness for C3: space 8 holds "backlog" (case-insensitive distractor)
and "Backlog" (unique exact match); the exact match is returned. -/
theorem findViewByName_exact_match_precedence_witness :
    [viewLower, viewExact].filter (fun u => u.name == "Backlog") = [viewExact] ∧
    viewLower.name.data.map Char.toLower = "Backlog".data.map Char.toLower ∧
    (ViewService.findViewByName sampleClient "8" "space" "Backlog").1 = .ok (some viewExact) :=
  ⟨by decide, by decide,
   (findViewByName_exact_match_precedence sampleClient "8" "Backlog"
      [viewLower, viewExact] viewExact (by decide)).2.1 rfl⟩

/-- Claim C1 counterexample: space 42 holds two views both named exactly
"Sprint 23" (the same matching tier); findViewByName silently returns the
first of them rather than any Ambiguous result carrying both candidates --
its result type, an optional single view, has no ambiguity channel at
all. -/
theorem findViewByName_duplicate_silent_pick :
    (ViewService.findViewByName sampleClient "42" "space" "Sprint 23").1 =
      .ok (some viewDupA) ∧
    viewDupA.name = "Sprint 23" ∧ viewDupB.name = "Sprint 23" ∧ viewDupA ≠ viewDupB :=
  ⟨rfl, rfl, rfl, by decide⟩

/-- Claim C1 amended: when several views of the scope carry the queried
name, findViewByName returns the first such view in the order the remote
returned them, silently ignoring the later duplicates; no Ambiguous
result exists.  Proved for all four parent scopes. -/
theorem findViewByName_returns_first_duplicate :
    ∀ (c : ViewClient) (parentId viewName : String) (l r : List ClickUpView)
      (v : ClickUpView),
      (∀ u ∈ l, u.name ≠ viewName) → v.name = viewName →
      ((c.workspaceViews = .ok (l ++ v :: r) →
         (ViewService.findViewByName c parentId "team" viewName).1 = .ok (some v)) ∧
       (c.spaceViews parentId = .ok (l ++ v :: r) →
         (ViewService.findViewByName c parentId "space" viewName).1 = .ok (some v)) ∧
       (c.folderViews parentId = .ok (l ++ v :: r) →
         (ViewService.findViewByName c parentId "folder" viewName).1 = .ok (some v)) ∧
       (c.listViews parentId = .ok (l ++ v :: r) →
         (ViewService.findViewByName c parentId "list" viewName).1 = .ok (some v))) := by
  intro c pid nm l r v hl hv
  have hfind : (l ++ v :: r).find? (fun u => u.name == nm) = some v :=
    find_first _ l r v (fun u hu => by simp [hl u hu]) (by simp [hv])
  refine ⟨?_, ?_, ?_, ?_⟩ <;> intro hc <;>
    simp [ViewService.findViewByName, ViewService.getWorkspaceViews,
      ViewService.getSpaceViews, ViewService.getFolderViews, ViewService.getListViews,
      hc, hfind]

/-- Witness for the amended C1: the duplicate pair of space 42. -/
theorem findViewByName_returns_first_duplicate_witness :
    (ViewService.findViewByName sampleClient "42" "space" "Sprint 23").1 =
      .ok (some viewDupA) :=
  (findViewByName_returns_first_duplicate sampleClient "42" "Sprint 23" [] [viewDupB]
    viewDupA (by intro u hu; cases hu) rfl).2.1 rfl

/-- Claim C2 counterexample: space 7 holds a single view named "backlog";
querying "Backlog" has zero exact matches and exactly one case-insensitive
match, yet findViewByName returns null (NotFound) -- there is no
case-insensitive fallback tier. -/
theorem findViewByName_no_ci_fallback :
    (ViewService.findViewByName sampleClient "7" "space" "Backlog").1 = .ok none ∧
    viewLower.name.data.map Char.toLower = "Backlog".data.map Char.toLower ∧
    viewLower.name ≠ "Backlog" :=
  ⟨rfl, by decide, by decide⟩

/-- Claim C2 amended: with zero byte-for-byte matches in the fetched scope
findViewByName returns null immediately, whether or not case-insensitive
matches exist; the fallback tier described by the spec is absent from the
view path.  Proved for all four parent scopes. -/
theorem findViewByName_notfound_without_exact :
    ∀ (c : ViewClient) (parentId viewName : String) (views : List ClickUpView),
      (∀ u ∈ views, u.name ≠ viewName) →
      ((c.workspaceViews = .ok views →
         (ViewService.findViewByName c parentId "team" viewName).1 = .ok none) ∧
       (c.spaceViews parentId = .ok views →
         (ViewService.findViewByName c parentId "space" viewName).1 = .ok none) ∧
       (c.folderViews parentId = .ok views →
         (ViewService.findViewByName c parentId "folder" viewName).1 = .ok none) ∧
       (c.listViews parentId = .ok views →
         (ViewService.findViewByName c parentId "list" viewName).1 = .ok none)) := by
  intro c pid nm views hnone
  have hfind : views.find? (fun u => u.name == nm) = none :=
    find_none _ views (fun u hu => by simp [hnone u hu])
  refine ⟨?_, ?_, ?_, ?_⟩ <;> intro hc <;>
    simp [ViewService.findViewByName, ViewService.getWorkspaceViews,
      ViewService.getSpaceViews, ViewService.getFolderViews, ViewService.getListViews,
      hc, hfind]

/-- Witness for the amended C2: the lone lower-case view of space 7. -/
theorem findViewByName_notfound_without_exact_witness :
    (ViewService.findViewByName sampleClient "7" "space" "Backlog").1 = .ok none :=
  (findViewByName_notfound_without_exact sampleClient "7" "Backlog" [viewLower]
    (by intro u hu; simp at hu; subst hu; decide)).2.1 rfl

/-- Claim C7 counterexample: two successive resolutions of different view
names in the same scope (space 42) each issue their own upstream fetch --
two fetches in total, not one coalesced fetch.  There is no cache between
findViewByName and the remote endpoint. -/
theorem repeated_resolution_refetches :
    ((ViewService.findViewByName sampleClient "42" "space" "Alpha").2 ++
      (ViewService.findViewByName sampleClient "42" "space" "Beta").2) =
      [RemoteCall.getSpaceViews "42", RemoteCall.getSpaceViews "42"] ∧
    ((ViewService.findViewByName sampleClient "42" "space" "Alpha").2 ++
      (ViewService.findViewByName sampleClient "42" "space" "Beta").2).length ≠ 1 :=
  ⟨rfl, by decide⟩

/-- Claim C7 amended: every findViewByName call performs exactly one
upstream fetch of its scope, for each of the four parent kinds; nothing is
cached or coalesced, so n resolutions in the same scope issue n fetches. -/
theorem findViewByName_fetch_per_call :
    ∀ (c : ViewClient) (parentId viewName : String),
      (ViewService.findViewByName c parentId "team" viewName).2 =
        [RemoteCall.getWorkspaceViews] ∧
      (ViewService.findViewByName c parentId "space" viewName).2 =
        [RemoteCall.getSpaceViews parentId] ∧
      (ViewService.findViewByName c parentId "folder" viewName).2 =
        [RemoteCall.getFolderViews parentId] ∧
      (ViewService.findViewByName c parentId "list" viewName).2 =
        [RemoteCall.getListViews parentId] :=
  fun _ _ _ => ⟨rfl, rfl, rfl, rfl⟩

/-- Claim C6: through handleGetView, an upstream fetch failure surfaces as
the upstream error message while a name absent from a successfully fetched
scope surfaces as the not-found message; the two error responses differ
for every view name, and neither case yields a success response.  Stated
for the space and team parent scopes. -/
theorem handleGetView_upstream_vs_notfound :
    ∀ (c : ViewClient) (w : WorkspaceEnv) (pid vname m : String)
      (views : List ClickUpView),
      vname ≠ "" → pid ≠ "" →
      (c.spaceViews pid = .error m →
        (handleGetView c w (gvParamsSpace vname pid)).1 =
          .errorResponse ("Failed to get view: " ++ "Failed to get space views")) ∧
      (c.spaceViews pid = .ok views → (∀ u ∈ views, u.name ≠ vname) →
        (handleGetView c w (gvParamsSpace vname pid)).1 =
          .errorResponse ("Failed to get view: " ++ ("View \"" ++ vname ++ "\" not found"))) ∧
      (c.workspaceViews = .error m →
        (handleGetView c w (gvParamsTeam vname)).1 =
          .errorResponse ("Failed to get view: " ++ "Failed to get workspace views")) ∧
      (c.workspaceViews = .ok views → (∀ u ∈ views, u.name ≠ vname) →
        (handleGetView c w (gvParamsTeam vname)).1 =
          .errorResponse ("Failed to get view: " ++ ("View \"" ++ vname ++ "\" not found"))) ∧
      ("Failed to get view: " ++ "Failed to get space views" ≠
        "Failed to get view: " ++ ("View \"" ++ vname ++ "\" not found")) ∧
      ("Failed to get view: " ++ "Failed to get workspace views" ≠
        "Failed to get view: " ++ ("View \"" ++ vname ++ "\" not found")) := by
  intro c w pid vname m views hv hp
  have hfindnone : ∀ vs : List ClickUpView, (∀ u ∈ vs, u.name ≠ vname) →
      vs.find? (fun u => u.name == vname) = none :=
    fun vs h => find_none _ vs (fun u hu => by simp [h u hu])
  refine ⟨?_, ?_, ?_, ?_, ?_, ?_⟩
  · intro hc
    simp [handleGetView, gvParamsSpace, truthy, hv, hp, resolveParentId, findViewByName,
      ViewService.findViewByName, ViewService.getSpaceViews, ViewService.handleError, hc]
  · intro hc hnone
    simp [handleGetView, gvParamsSpace, truthy, hv, hp, resolveParentId, findViewByName,
      ViewService.findViewByName, ViewService.getSpaceViews, hc, hfindnone views hnone]
    rw [← String.append_assoc, ← String.append_assoc]
    rfl
  · intro hc
    simp [handleGetView, gvParamsTeam, truthy, hv, hp, resolveParentId, findViewByName,
      ViewService.findViewByName, ViewService.getWorkspaceViews, ViewService.handleError, hc]
  · intro hc hnone
    simp [handleGetView, gvParamsTeam, truthy, hv, hp, resolveParentId, findViewByName,
      ViewService.findViewByName, ViewService.getWorkspaceViews, hc, hfindnone views hnone]
    rw [← String.append_assoc, ← String.append_assoc]
    rfl
  · apply append_ne_of_ne
    apply ne_of_head_ne
    rw [String.data_append, String.data_append]
    exact (by decide : (some 'F' : Option Char) ≠ some 'V')
  · apply append_ne_of_ne
    apply ne_of_head_ne
    rw [String.data_append, String.data_append]
    exact (by decide : (some 'F' : Option Char) ≠ some 'V')

/-- Witness for C6: the failing client surfaces the upstream message, the
healthy client surfaces the not-found message, and the two differ. -/
theorem handleGetView_upstream_vs_notfound_witness :
    (handleGetView failingClient sampleWorkspaceEnv (gvParamsSpace "Backlog" "7")).1 =
      .errorResponse ("Failed to get view: " ++ "Failed to get space views") ∧
    (handleGetView sampleClient sampleWorkspaceEnv (gvParamsSpace "Missing" "7")).1 =
      .errorResponse ("Failed to get view: " ++ ("View \"" ++ "Missing" ++ "\" not found")) ∧
    ("Failed to get view: " ++ "Failed to get space views" ≠
      "Failed to get view: " ++ ("View \"" ++ "Missing" ++ "\" not found")) :=
  ⟨(handleGetView_upstream_vs_notfound failingClient sampleWorkspaceEnv "7" "Backlog"
      "ECONNRESET" [] (by decide) (by decide)).1 rfl,
   (handleGetView_upstream_vs_notfound sampleClient sampleWorkspaceEnv "7" "Missing"
      "" [viewLower] (by decide) (by decide)).2.1 rfl
      (by intro u hu; simp at hu; subst hu; decide),
   (handleGetView_upstream_vs_notfound sampleClient sampleWorkspaceEnv "7" "Missing"
      "" [viewLower] (by decide) (by decide)).2.2.2.2.1⟩

/-- Every remote call issued by resolveParentId is a fetch, never a cache
invalidation. -/
theorem resolveParentId_trace_no_invalidate :
    ∀ (w : WorkspaceEnv) (parentType : String) (parentId parentName : Option String),
      ((resolveParentId w parentType parentId parentName).2.all
        (fun ev => !ev.isInvalidate)) = true := by
  intro w pt pid pname
  unfold resolveParentId
  repeat' split
  all_goals rfl

/-- Every remote call issued by ViewService.createView is the create
request itself, never a cache invalidation. -/
theorem createView_trace_no_invalidate :
    ∀ (c : ViewClient) (d : CreateViewData),
      ((ViewService.createView c d).2.all (fun ev => !ev.isInvalidate)) = true := by
  intro c d
  unfold ViewService.createView
  repeat' split
  all_goals rfl

/-- Claim C8 counterexample: a successful create_view run and a successful
delete_space run; each performs its remote mutation and returns a success
response with not a single cache-invalidation call anywhere in its trace
(and in particular none between the mutation and the return). -/
theorem mutation_without_invalidation :
    (handleCreateView sampleClient sampleWorkspaceEnv cvParams).1 =
      .response { id := "new_view", name := "Current Sprint", type := "board",
                  message := "View \"Current Sprint\" created successfully" } ∧
    ((handleCreateView sampleClient sampleWorkspaceEnv cvParams).2.filter
        RemoteCall.isInvalidate) = [] ∧
    (handleCreateView sampleClient sampleWorkspaceEnv cvParams).2 ≠ [] ∧
    (handleDeleteSpace sampleWorkspaceEnv dsParams).1 =
      .response { message := "Space \"Eng\" deleted successfully" } ∧
    ((handleDeleteSpace sampleWorkspaceEnv dsParams).2.filter
        RemoteCall.isInvalidate) = [] := by
  refine ⟨by decide, by decide, by decide, by decide, by decide⟩

/-- Claim C8 amended: the view and space mutation handlers issue the remote
mutation and return directly; no cache-invalidation call ever appears in
their traces.  (No cache exists on the view path, whose resolution
re-fetches from the remote on every call; any hierarchy-cache clearing for
spaces happens inside the workspace service, not in these handlers.) -/
theorem mutation_handlers_no_invalidate :
    ∀ (c : ViewClient) (w : WorkspaceEnv) (p : CreateViewParams) (q : DeleteSpaceParams),
      ((handleCreateView c w p).2.all (fun ev => !ev.isInvalidate)) = true ∧
      ((handleDeleteSpace w q).2.all (fun ev => !ev.isInvalidate)) = true := by
  intro c w p q
  constructor
  · simp only [handleCreateView]
    split
    · rfl
    · rcases hres1 : (resolveParentId w (p.parentType.getD "") p.parentId p.parentName).1 with m | rid <;>
        simp [List.all_append, resolveParentId_trace_no_invalidate,
          createView_trace_no_invalidate]
  · simp only [handleDeleteSpace]
    repeat' split
    all_goals rfl

/-- jsOrS never returns the empty string when its fallback is nonempty. -/
theorem jsOrS_ne_empty (s d : String) (hd : d ≠ "") : jsOrS s d ≠ "" := by
  unfold jsOrS
  split
  · exact hd
  · next h => simpa using h

/-- Claim C9: the initial create_space request carries only the name, the
multiple-assignees flag and the features; whenever a color or privacy
setting is supplied or the creation response reports a name other than the
requested one, a follow-up update on the new space id is issued before
responding; and the success response never reports an empty name -- it
falls back to the requested name when the remote reports none. -/
theorem handleCreateSpace_shape :
    ∀ (w : WorkspaceEnv) (p : CreateSpaceParams) (nm : String) (s : ClickUpSpace),
      p.name = some nm → nm ≠ "" →
      ((handleCreateSpace w p).2.head? =
        some (RemoteCall.createSpace (createSpaceRequestData p nm))) ∧
      (w.createSpace (createSpaceRequestData p nm) = .ok s →
        (truthy p.color = true ∨ p.«private».isSome = true ∨ s.name ≠ nm) →
        RemoteCall.updateSpace s.id (createSpaceFixupData w p nm s) ∈
          (handleCreateSpace w p).2) ∧
      (∀ out, (handleCreateSpace w p).1 = .response out → out.name ≠ "") := by
  intro w p nm s hname hnm
  have ht : truthy p.name = true := by
    rw [hname]
    simp [truthy, hnm]
  have hgd : p.name.getD "" = nm := by rw [hname]; rfl
  refine ⟨?_, ?_, ?_⟩
  · simp only [handleCreateSpace, ht, hgd, Bool.not_true, Bool.false_eq_true, if_false]
    rcases hcs : w.createSpace (createSpaceRequestData p nm) with m | ns
    · simp only [createSpaceRequestData] at hcs
      simp [hcs, createSpaceRequestData]
    · simp only [createSpaceRequestData] at hcs
      simp only [hcs]
      repeat' split
      all_goals simp [createSpaceRequestData]
  · intro hcs hneed
    simp only [createSpaceRequestData] at hcs
    have hk : 0 < (createSpaceFixupData w p nm s).keyCount := by
      rcases hneed with hcol | hpriv | hmis
      · have h1 : (createSpaceFixupData w p nm s).color.isSome = true := by
          simp [createSpaceFixupData, hcol]
        unfold UpdateSpaceData.keyCount
        simp [h1]
        try omega
      · have h1 : (createSpaceFixupData w p nm s).«private».isSome = true := by
          simp [createSpaceFixupData, hpriv]
        unfold UpdateSpaceData.keyCount
        simp [h1]
        try omega
      · have h1 : (createSpaceFixupData w p nm s).name.isSome = true := by
          simp [createSpaceFixupData, hmis]
        unfold UpdateSpaceData.keyCount
        simp [h1]
        try omega
    simp only [handleCreateSpace, ht, hgd, Bool.not_true, Bool.false_eq_true, if_false, hcs]
    rw [if_pos hk]
    rcases hup : w.updateSpace s.id (createSpaceFixupData w p nm s) with m | us
    · simp [hup, List.mem_append]
    · simp only [hup]
      repeat' split
      all_goals simp [List.mem_append]
  · intro out hout
    simp only [handleCreateSpace, ht, hgd, Bool.not_true, Bool.false_eq_true, if_false] at hout
    repeat' split at hout
    all_goals simp only [HandlerOutcome.response.injEq] at hout
    all_goals try exact absurd hout (by simp)
    all_goals subst hout
    all_goals exact jsOrS_ne_empty _ _ hnm

/-- Witness for C9: creating "Q1 2025 Projects" with a color and privacy
flag against a remote that reports empty names; the creation request
carries only the three creation fields, a follow-up update on the new id
is issued, and the response name falls back to the requested one. -/
theorem handleCreateSpace_shape_witness :
    ((handleCreateSpace namelessWorkspaceEnv csParams).2.head? =
      some (RemoteCall.createSpace (createSpaceRequestData csParams "Q1 2025 Projects"))) ∧
    (RemoteCall.updateSpace "space_new"
        (createSpaceFixupData namelessWorkspaceEnv csParams "Q1 2025 Projects" sNew) ∈
      (handleCreateSpace namelessWorkspaceEnv csParams).2) ∧
    csOut.name ≠ "" := by
  have h := handleCreateSpace_shape namelessWorkspaceEnv csParams "Q1 2025 Projects" sNew
    rfl (by decide)
  exact ⟨h.1, h.2.1 rfl (Or.inl rfl), h.2.2 csOut (by decide)⟩

/-- Claim C10: for update_view and update_space an empty-string name
parameter behaves exactly like an absent one: the built update data
carries no name, and the whole handler run (result and remote calls,
hence all other supplied fields) is identical to the run without the name
parameter. -/
theorem update_handlers_empty_name_as_absent :
    ∀ (c : ViewClient) (w : WorkspaceEnv) (pv : UpdateViewParams) (ps : UpdateSpaceParams),
      pv.name = some "" → ps.name = some "" →
      (buildUpdateViewData pv).name = none ∧
      (buildUpdateSpaceData w ps).name = none ∧
      handleUpdateView c w pv = handleUpdateView c w { pv with name := none } ∧
      handleUpdateSpace w ps = handleUpdateSpace w { ps with name := none } := by
  intro c w pv ps hv hs
  refine ⟨by simp [buildUpdateViewData, hv, truthy], by simp [buildUpdateSpaceData, hs, truthy],
    ?_, ?_⟩
  · simp [handleUpdateView, buildUpdateViewData, hv, truthy]
  · simp [handleUpdateSpace, buildUpdateSpaceData, hs, truthy]

/-- Witness for C10: an update_view with grouping and an update_space with
a privacy flag, each carrying an empty-string name, run identically to the
same calls without the name parameter. -/
theorem update_handlers_empty_name_as_absent_witness :
    handleUpdateView sampleClient sampleWorkspaceEnv uvParamsEmptyName =
      handleUpdateView sampleClient sampleWorkspaceEnv { uvParamsEmptyName with name := none } ∧
    handleUpdateSpace sampleWorkspaceEnv usParamsEmptyName =
      handleUpdateSpace sampleWorkspaceEnv { usParamsEmptyName with name := none } :=
  ⟨(update_handlers_empty_name_as_absent sampleClient sampleWorkspaceEnv
      uvParamsEmptyName usParamsEmptyName rfl rfl).2.2.1,
   (update_handlers_empty_name_as_absent sampleClient sampleWorkspaceEnv
      uvParamsEmptyName usParamsEmptyName rfl rfl).2.2.2⟩

end ClickUpMCP
